import Mathlib

/-!
Verification of the SoapyRemote DNS-SD facade (src/common/SoapyDNSSDAvahi.cpp).

The C++ file is a thin facade over the avahi client library: a publisher
(`registerService`), a browser/resolver pipeline feeding a result map, and a
snapshot projection (`getServerURLs`).  We embed the data model and the
operations as executable Lean functions, and the asynchronous browser/resolver
callbacks as a step function over an explicit session state, driven by a list
of delivered events.  Machine integers keep their C semantics explicitly:
`resolversInFlight` is a `size_t`, so increment and decrement are taken
modulo 2^64; the `int` port from `atoi` is converted to `uint16_t` modulo 2^16.
Calls that dereference the (possibly null) avahi client pointer are modelled
as `Option`-returning functions, `none` standing for the null dereference.
-/

set_option autoImplicit false

/-! ## Constants

Avahi protocol constants from avahi-common/address.h:
`AVAHI_PROTO_INET = 0`, `AVAHI_PROTO_INET6 = 1`, `AVAHI_PROTO_UNSPEC = -1`. -/

def AVAHI_PROTO_INET : Int := 0

def AVAHI_PROTO_INET6 : Int := 1

def AVAHI_PROTO_UNSPEC : Int := -1

/-- Modelled from the spec: the IP-version constants come from
SoapyRemoteDefs.hpp, which is not under src/.  The spec (§3) only requires a
tagged variant with three distinguished values mapped bidirectionally to the
daemon protocol constants; the numeric values below are those of the header
(0 / 4 / 6), and no claim depends on the exact values, only on distinctness. -/
def SOAPY_REMOTE_IPVER_UNSPEC : Int := 0

/-- Modelled from the spec: see SOAPY_REMOTE_IPVER_UNSPEC. -/
def SOAPY_REMOTE_IPVER_INET : Int := 4

/-- Modelled from the spec: see SOAPY_REMOTE_IPVER_UNSPEC. -/
def SOAPY_REMOTE_IPVER_INET6 : Int := 6

def SOAPY_REMOTE_DNSSD_NAME : String := "SoapyRemote"

def SOAPY_REMOTE_DNSSD_TYPE : String := "_soapy._tcp"

/-- Embedding of `ipVerToAvahiProtocol` (SoapyDNSSDAvahi.cpp lines 25-32):
starts from UNSPEC and overwrites on each recognized constant. -/
def ipVerToAvahiProtocol (ipVer : Int) : Int :=
  let protocol := AVAHI_PROTO_UNSPEC
  let protocol := if ipVer = SOAPY_REMOTE_IPVER_UNSPEC then AVAHI_PROTO_UNSPEC else protocol
  let protocol := if ipVer = SOAPY_REMOTE_IPVER_INET then AVAHI_PROTO_INET else protocol
  let protocol := if ipVer = SOAPY_REMOTE_IPVER_INET6 then AVAHI_PROTO_INET6 else protocol
  protocol

/-- Embedding of `avahiProtocolToIpVer` (lines 34-41). -/
def avahiProtocolToIpVer (protocol : Int) : Int :=
  let ipVer := SOAPY_REMOTE_IPVER_UNSPEC
  let ipVer := if protocol = AVAHI_PROTO_UNSPEC then SOAPY_REMOTE_IPVER_UNSPEC else ipVer
  let ipVer := if protocol = AVAHI_PROTO_INET then SOAPY_REMOTE_IPVER_INET else ipVer
  let ipVer := if protocol = AVAHI_PROTO_INET6 then SOAPY_REMOTE_IPVER_INET6 else ipVer
  ipVer

/-! ## C `atoi` (used for the port string, line 220) -/

def isSpaceChar (c : Char) : Bool :=
  c = ' ' || c = '\t' || c = '\n' || c = '\x0b' || c = '\x0c' || c = '\r'

def skipSpaces : List Char → List Char
  | [] => []
  | c :: t => if isSpaceChar c then skipSpaces t else c :: t

def digitsAcc : Int → List Char → Int
  | acc, [] => acc
  | acc, c :: t => if c.isDigit then digitsAcc (acc * 10 + ((c.toNat - 48 : Nat) : Int)) t else acc

/-- Embedding of C `atoi`: skip whitespace, optional sign, then the longest
run of leading decimal digits (0 when there is none).  Overflow of the C
`int` is undefined behaviour and is not modelled; the claims only evaluate
it on short strings. -/
def atoiChars (cs : List Char) : Int :=
  match skipSpaces cs with
  | [] => 0
  | c :: t =>
    if c = '-' then - digitsAcc 0 t
    else if c = '+' then digitsAcc 0 t
    else digitsAcc 0 (c :: t)

def atoi (s : String) : Int := atoiChars s.data

/-! ## Association-list model of `std::map`

The store `std::map<ResultKey, ResultValue>` and the snapshot's nested maps
are modelled as association lists with unique keys; `mapAssign` is
`operator[] =` (replace in place or insert), `mapErase` is `erase` of the
found entry, `mapFind` is `find`.  The list order stands for the map's
iteration order. -/

def mapFind {K V : Type} [DecidableEq K] : List (K × V) → K → Option V
  | [], _ => none
  | (k, v) :: t, k2 => if k2 = k then some v else mapFind t k2

def mapAssign {K V : Type} [DecidableEq K] (k : K) (v : V) : List (K × V) → List (K × V)
  | [] => [(k, v)]
  | (k2, v2) :: t => if k = k2 then (k, v) :: t else (k2, v2) :: mapAssign k v t

def mapErase {K V : Type} [DecidableEq K] (k : K) : List (K × V) → List (K × V)
  | [] => []
  | (k2, v2) :: t => if k = k2 then t else (k2, v2) :: mapErase k t

/-- `ResultKey` (line 77): (interface, protocol, name, type, domain). -/
abbrev ResultKey := Int × Int × String × String × String

/-- `ResultValue` (line 78): (uuid, ipVer, url). -/
abbrev ResultValue := String × Int × String

/-- Modelled from the spec: `SoapyURL::toString` lives in SoapyURLUtils.cpp,
which is not under src/.  Per spec §3 (ResolvedService) and §6, the returned
URL form is `scheme://node:service`, i.e. `tcp://<addr>[%<ifIndex>]:<port>`
with the optional zone already part of the node string. -/
def SoapyURL.toString (scheme node service : String) : String :=
  scheme ++ "://" ++ node ++ ":" ++ service

/-- Embedding of `SoapyDNSSDImpl::add_result` (lines 243-263): drop empty
uuid, append the `%<ifIndex>` zone to the address exactly for INET6, build
the tcp URL, and insert-or-assign under the tuple key. -/
def add_result (interface protocol : Int) (name ty domain uuid host : String) (port : Nat)
    (results : List (ResultKey × ResultValue)) : List (ResultKey × ResultValue) :=
  if uuid = "" then results else
  let ipVer := avahiProtocolToIpVer protocol
  let addr := if protocol = AVAHI_PROTO_INET6 then host ++ "%" ++ toString interface else host
  let serverURL := SoapyURL.toString "tcp" addr (toString port)
  mapAssign (interface, protocol, name, ty, domain) (uuid, ipVer, serverURL) results

/-- Embedding of `SoapyDNSSDImpl::remove_result` (lines 265-284): find the
key; if absent return unchanged, else erase the found entry. -/
def remove_result (interface protocol : Int) (name ty domain : String)
    (results : List (ResultKey × ResultValue)) : List (ResultKey × ResultValue) :=
  let key : ResultKey := (interface, protocol, name, ty, domain)
  match mapFind results key with
  | none => results
  | some _ => mapErase key results

/-! ## Snapshot projection (getServerURLs lines 413-422) -/

/-- One iteration of the projection loop: `uuidToUrl[uuid][ipVer] = serverURL`
(`operator[]` default-constructs the inner map when the uuid is new). -/
def snapshotStep (m : List (String × List (Int × String))) (e : ResultKey × ResultValue) :
    List (String × List (Int × String)) :=
  let uuid := e.2.1
  let ipVer := e.2.2.1
  let serverURL := e.2.2.2
  mapAssign uuid (mapAssign ipVer serverURL ((mapFind m uuid).getD [])) m

def snapshot (results : List (ResultKey × ResultValue)) : List (String × List (Int × String)) :=
  results.foldl snapshotStep []

def lookup2 (m : List (String × List (Int × String))) (uuid : String) (ipVer : Int) :
    Option String :=
  (mapFind m uuid).bind (fun inner => mapFind inner ipVer)

/-! ## Daemon client -/

/-- Avahi client states as seen by `clientCallback` (lines 123-142). -/
inductive ClientState
  | Registering
  | Running
  | Collision
  | Failure
  | Connecting
deriving DecidableEq

/-- A live (non-null) avahi client handle with the accessors the facade
reads (`avahi_client_get_state`, `_get_version_string`, `_get_host_name`,
`_get_domain_name`, `_get_host_name_fqdn`). -/
structure ClientHandle where
  state : ClientState
  version : String
  hostName : String
  domainName : String
  fqdn : String
deriving DecidableEq

/-- Embedding of `SoapyDNSSD::status` (lines 189-192):
`avahi_client_get_state(client) != AVAHI_CLIENT_FAILURE`. -/
def statusOfState (st : ClientState) : Bool :=
  decide (st ≠ ClientState.Failure)

/-- `SoapyDNSSD::status` with the client pointer explicit: a null client is
passed straight to `avahi_client_get_state` (null dereference, `none`). -/
def status (client : Option ClientHandle) : Option Bool :=
  client.map (fun c => statusOfState c.state)

/-- Embedding of `SoapyDNSSD::printInfo` (lines 180-187): the four INFO log
lines; a null client is dereferenced by the accessors (`none`). -/
def printInfo (client : Option ClientHandle) : Option (List String) :=
  client.map (fun c =>
    ["Avahi version:  " ++ c.version,
     "Avahi hostname: " ++ c.hostName,
     "Avahi domain:   " ++ c.domainName,
     "Avahi FQDN:     " ++ c.fqdn])

/-! ## Publisher (`registerService`, lines 194-238) -/

/-- Environment responses of the avahi publisher calls: whether
`avahi_entry_group_new` succeeds, the return code of
`avahi_entry_group_add_service_strlst` as a function of the protocol and
port arguments, and the return code of `avahi_entry_group_commit`. -/
structure RegEnv where
  groupNewOk : Bool
  addServiceRet : Int → Nat → Int
  commitRet : Int

/-- Observable outcome of one `registerService` call: the ERROR log lines,
whether the entry group was allocated, the arguments passed to the add call
(`none` when the call was never reached), whether the group was committed
(service published), and whether the poll thread was spawned (line 237). -/
structure RegResult where
  errorLogs : List String
  groupCreated : Bool
  addCallProto : Option Int
  addCallPort : Option Nat
  addCallName : Option String
  addCallTxt : Option (List (String × String))
  published : Bool
  threadSpawned : Bool
deriving DecidableEq

/-- Embedding of `SoapyDNSSD::registerService` (lines 194-238).  The client
pointer is passed with no null guard to `avahi_entry_group_new` and
`avahi_client_get_host_name` (`none` models the null dereference).  The port
is `atoi(service)` converted to the `uint16_t` parameter, i.e. modulo 2^16.
Every failure is logged and returns early; only the full success path
spawns the poll thread. -/
def registerService (client : Option ClientHandle) (env : RegEnv)
    (uuid service : String) (ipVer : Int) : Option RegResult :=
  match client with
  | none => none
  | some c =>
    if env.groupNewOk = false then
      some { errorLogs := ["avahi_entry_group_new() failed"], groupCreated := false,
             addCallProto := none, addCallPort := none, addCallName := none,
             addCallTxt := none, published := false, threadSpawned := false }
    else
      let name := SOAPY_REMOTE_DNSSD_NAME ++ " @ " ++ c.hostName
      let txt := [("uuid", uuid)]
      let proto := ipVerToAvahiProtocol ipVer
      let port := ((atoi service) % 65536).toNat
      let ret := env.addServiceRet proto port
      if ret ≠ 0 then
        some { errorLogs := ["avahi_entry_group_add_service() failed"], groupCreated := true,
               addCallProto := some proto, addCallPort := some port, addCallName := some name,
               addCallTxt := some txt, published := false, threadSpawned := false }
      else if env.commitRet ≠ 0 then
        some { errorLogs := ["avahi_entry_group_commit() failed"], groupCreated := true,
               addCallProto := some proto, addCallPort := some port, addCallName := some name,
               addCallTxt := some txt, published := false, threadSpawned := false }
      else
        some { errorLogs := [], groupCreated := true,
               addCallProto := some proto, addCallPort := some port, addCallName := some name,
               addCallTxt := some txt, published := true, threadSpawned := true }

/-- Modelled from the spec: the avahi entry-group add call is library code
outside src/.  Spec §4.3 and §7 state that a port string parsing to 0 is a
logged publisher failure ("non-numeric yields 0, which is a logged
failure"), so this environment rejects exactly port 0. -/
def specAddServiceRet (_proto : Int) (port : Nat) : Int :=
  if port = 0 then -1 else 0

def specRegEnv : RegEnv :=
  { groupNewOk := true, addServiceRet := specAddServiceRet, commitRet := 0 }

def okRegEnv : RegEnv :=
  { groupNewOk := true, addServiceRet := fun _ _ => 0, commitRet := 0 }

/-! ## Session state and the browser/resolver event machine -/

/-- The mutable session state of `SoapyDNSSDImpl` (lines 46-80), with the
thread and browser pointers reduced to the facts the claims observe:
`pollThreadCount` counts `new std::thread` executions (the `pollThread`
pointer is just overwritten by each), `browser` records whether the browser
pointer is non-null, `browserProto` the protocol it was created with.
`pendingResolvers` is ghost state counting resolvers that were successfully
allocated and whose callback has not fired yet; it makes exactly the event
sequences with a matching callback per allocated resolver reachable. -/
structure Impl where
  client : Option ClientHandle
  simplePollOk : Bool
  browser : Bool
  browserProto : Option Int
  pollThreadCount : Nat
  results : List (ResultKey × ResultValue)
  resolversInFlight : Nat
  pendingResolvers : Nat
  browseComplete : Bool
deriving DecidableEq

/-- Wrap-around bound of the C `size_t` holding `resolversInFlight`. -/
def SIZE_T_MOD : Nat := 2 ^ 64

def sizeTAdd1 (n : Nat) : Nat := (n + 1) % SIZE_T_MOD

def sizeTSub1 (n : Nat) : Nat := (n + (SIZE_T_MOD - 1)) % SIZE_T_MOD

/-- The asynchronous callback events delivered by the poll driver: the
browser events of `browserCallback` (lines 329-378) and the completion of
one resolver, `resolverCallback` (lines 286-327).  `browserNew` carries
whether `avahi_service_resolver_new` succeeded; `resolverDone` carries the
FOUND flag, whether the address was non-null, the service tuple, the TXT
pairs and the printed address. -/
inductive DnssdEvent
  | browserFailure
  | browserNew (allocOk : Bool)
  | browserRemove (interface protocol : Int) (name ty domain : String)
  | browserAllForNow
  | browserCacheExhausted
  | resolverDone (found addrOk : Bool) (interface protocol : Int)
      (name ty domain : String) (txt : List (String × String)) (addr : String) (port : Nat)

/-- TXT pairs folded into a `std::map` (lines 310-319): duplicate keys, last
wins.  Pairs with null key or value are skipped by the source before
insertion; the model carries only the valid pairs. -/
def txtFields (txt : List (String × String)) : List (String × String) :=
  txt.foldl (fun m kv => mapAssign kv.1 kv.2 m) []

/-- The value of `fields["uuid"]` (line 321): `std::map::operator[]`
default-constructs the empty string when the key is absent. -/
def txtUuid (txt : List (String × String)) : String :=
  (mapFind (txtFields txt) "uuid").getD ""

/-- One callback dispatch.  `browserFailure` forces the counter to 0 and
completes the browse (lines 344-348); `browserNew` increments the counter
only when the resolver was allocated (lines 350-365); `browserRemove` calls
`remove_result` (line 369); the two completion events set `browseComplete`
(lines 373-376).  `resolverDone` (guarded by an actually outstanding
resolver) inserts the result only on FOUND with a non-null address, then
unconditionally decrements the `size_t` counter (line 325). -/
def dnssdStep (impl : Impl) (ev : DnssdEvent) : Impl :=
  match ev with
  | .browserFailure =>
      { impl with resolversInFlight := 0, browseComplete := true }
  | .browserNew allocOk =>
      if allocOk then
        { impl with resolversInFlight := sizeTAdd1 impl.resolversInFlight,
                    pendingResolvers := impl.pendingResolvers + 1 }
      else impl
  | .browserRemove interface protocol name ty domain =>
      { impl with results := remove_result interface protocol name ty domain impl.results }
  | .browserAllForNow => { impl with browseComplete := true }
  | .browserCacheExhausted => { impl with browseComplete := true }
  | .resolverDone found addrOk interface protocol name ty domain txt addr port =>
      if impl.pendingResolvers = 0 then impl
      else
        let results2 :=
          if found && addrOk then
            add_result interface protocol name ty domain (txtUuid txt) addr port impl.results
          else impl.results
        { impl with results := results2,
                    resolversInFlight := sizeTSub1 impl.resolversInFlight,
                    pendingResolvers := impl.pendingResolvers - 1 }

def dnssdRun (impl : Impl) (events : List DnssdEvent) : Impl :=
  events.foldl dnssdStep impl

/-! ## Construction (`SoapyDNSSDImpl::SoapyDNSSDImpl`, lines 84-107) -/

/-- Environment of the constructor: whether `avahi_simple_poll_new`
succeeds, and the result of `avahi_client_new` (`none` = failed, the client
pointer stays null). -/
structure CtorEnv where
  pollNewOk : Bool
  clientNew : Option ClientHandle

/-- The member-initializer state (lines 84-91): every pointer null, counter
0, `browseComplete` false. -/
def implInit : Impl :=
  { client := none, simplePollOk := false, browser := false, browserProto := none,
    pollThreadCount := 0, results := [], resolversInFlight := 0,
    pendingResolvers := 0, browseComplete := false }

/-- Embedding of the constructor body (lines 93-106): an early return on a
failed poll allocation leaves the client null; otherwise the client field
receives whatever `avahi_client_new` produced. -/
def mkImpl (env : CtorEnv) : Impl :=
  if env.pollNewOk = false then implInit
  else { implInit with simplePollOk := true, client := env.clientNew }

/-! ## Facade discovery (`getServerURLs`, lines 380-425) -/

/-- Environment of one discovery call: whether `avahi_service_browser_new`
succeeds, and the event sequence the daemon delivers while the poll driver
is pumped. -/
structure BrowseEnv where
  browserNewOk : Bool
  events : List DnssdEvent

/-- Embedding of `SoapyDNSSD::getServerURLs` (lines 380-425).  With a
browser already present it jumps straight to the snapshot (line 385) and
never touches the client.  Otherwise the client pointer is dereferenced by
`avahi_service_browser_new` (null client: `none`); a failed browser
allocation returns the empty map with the browser still null; on success
the inline pump processes the delivered events, a poll thread is spawned
(line 411), and the snapshot of the results is returned. -/
def getServerURLs (env : BrowseEnv) (impl : Impl) (ipVerReq : Int) :
    Option (Impl × List (String × List (Int × String))) :=
  if impl.browser then some (impl, snapshot impl.results)
  else
    match impl.client with
    | none => none
    | some _ =>
      if env.browserNewOk = false then some (impl, [])
      else
        let impl1 := { impl with browser := true,
                                 browserProto := some (ipVerToAvahiProtocol ipVerReq) }
        let impl2 := dnssdRun impl1 env.events
        let impl3 := { impl2 with pollThreadCount := impl2.pollThreadCount + 1 }
        some (impl3, snapshot impl3.results)

/-- `registerService` acting on the session state: on the full success path
line 237 spawns one more poll thread. -/
def registerServiceSession (env : RegEnv) (uuid service : String) (ipVer : Int)
    (impl : Impl) : Option Impl :=
  (registerService impl.client env uuid service ipVer).map
    (fun r => if r.threadSpawned
      then { impl with pollThreadCount := impl.pollThreadCount + 1 }
      else impl)

/-! ## Concrete fixtures for counterexamples and witnesses -/

def okClient : ClientHandle :=
  { state := ClientState.Running, version := "avahi 0.8", hostName := "myhost",
    domainName := "local", fqdn := "myhost.local" }

def implConnected : Impl :=
  mkImpl { pollNewOk := true, clientNew := some okClient }

/-- Modelled from the spec: §4.2 — the daemon client "connects
asynchronously, NOT failing construction on a temporarily absent responder
(equivalent to the daemon client's no-fail mode)".  With the responder
daemon absent, `avahi_client_new` with AVAHI_CLIENT_NO_FAIL succeeds and
the client sits in the Connecting state until a daemon appears. -/
def daemonAbsentClient : ClientHandle :=
  { state := ClientState.Connecting, version := "avahi 0.8", hostName := "myhost",
    domainName := "local", fqdn := "myhost.local" }

/-- Modelled from the spec: the constructor environment when the responder
daemon is absent (see daemonAbsentClient): the poll allocation succeeds and
client construction succeeds in the Connecting state. -/
def daemonAbsentCtorEnv : CtorEnv :=
  { pollNewOk := true, clientNew := some daemonAbsentClient }

/-- Two stored results on different interfaces carrying the same uuid and
ipVer but different URLs (spec §8: "same ipVer key → second wins"). -/
def resTwoIfaces : List (ResultKey × ResultValue) :=
  [((1, 0, "SoapyRemote @ a", "_soapy._tcp", "local"), ("A", 4, "tcp://10.0.0.1:100")),
   ((2, 0, "SoapyRemote @ a", "_soapy._tcp", "local"), ("A", 4, "tcp://10.0.0.2:100"))]

def hasPct (s : String) : Bool :=
  s.data.any (fun c => c = '%')

/-! ## Association-list lemmas -/

theorem mapFind_mapAssign {K V : Type} [DecidableEq K] (k : K) (v : V) (m : List (K × V))
    (k2 : K) : mapFind (mapAssign k v m) k2 = if k2 = k then some v else mapFind m k2 := by
  induction m with
  | nil => simp [mapAssign, mapFind]
  | cons e t ih =>
    obtain ⟨k3, v3⟩ := e
    simp only [mapAssign]
    by_cases hk : k = k3
    · subst hk
      by_cases h2 : k2 = k <;> simp [mapFind, h2]
    · by_cases h2 : k2 = k3
      · subst h2
        have hne : k2 ≠ k := fun h => hk h.symm
        simp [mapFind, hk, hne]
      · simp [mapFind, hk, h2, ih]

theorem mem_mapAssign {K V : Type} [DecidableEq K] {x : K × V} {k : K} {v : V}
    {m : List (K × V)} (h : x ∈ mapAssign k v m) : x = (k, v) ∨ x ∈ m := by
  induction m with
  | nil => simpa [mapAssign] using h
  | cons e t ih =>
    obtain ⟨k3, v3⟩ := e
    simp only [mapAssign] at h
    by_cases hk : k = k3
    · rw [if_pos hk] at h
      rcases List.mem_cons.mp h with h1 | h1
      · exact Or.inl h1
      · exact Or.inr (List.mem_cons_of_mem _ h1)
    · rw [if_neg hk] at h
      rcases List.mem_cons.mp h with h1 | h1
      · exact Or.inr (h1 ▸ List.mem_cons_self _ _)
      · rcases ih h1 with h2 | h2
        · exact Or.inl h2
        · exact Or.inr (List.mem_cons_of_mem _ h2)

theorem mem_mapErase {K V : Type} [DecidableEq K] {x : K × V} {k : K} {m : List (K × V)}
    (h : x ∈ mapErase k m) : x ∈ m := by
  induction m with
  | nil => simp [mapErase] at h
  | cons e t ih =>
    obtain ⟨k3, v3⟩ := e
    simp only [mapErase] at h
    by_cases hk : k = k3
    · rw [if_pos hk] at h
      exact List.mem_cons_of_mem _ h
    · rw [if_neg hk] at h
      rcases List.mem_cons.mp h with h1 | h1
      · exact h1 ▸ List.mem_cons_self _ _
      · exact List.mem_cons_of_mem _ (ih h1)

theorem mapFind_eq_none_of_not_mem_keys {K V : Type} [DecidableEq K] {k : K}
    {m : List (K × V)} (h : k ∉ m.map Prod.fst) : mapFind m k = none := by
  induction m with
  | nil => simp [mapFind]
  | cons e t ih =>
    obtain ⟨k3, v3⟩ := e
    simp only [List.map_cons, List.mem_cons] at h
    push_neg at h
    simp [mapFind, h.1, ih h.2]

theorem mapFind_mapErase_self {K V : Type} [DecidableEq K] {k : K} {m : List (K × V)}
    (h : (m.map Prod.fst).Nodup) : mapFind (mapErase k m) k = none := by
  induction m with
  | nil => simp [mapErase, mapFind]
  | cons e t ih =>
    obtain ⟨k3, v3⟩ := e
    simp only [List.map_cons, List.nodup_cons] at h
    obtain ⟨hnot, hnd⟩ := h
    simp only [mapErase]
    by_cases hk : k = k3
    · subst hk
      rw [if_pos rfl]
      exact mapFind_eq_none_of_not_mem_keys hnot
    · rw [if_neg hk]
      simp only [mapFind, if_neg hk]
      exact ih hnd

/-! ## Claim theorems -/

/-- C1: the claim states `resolversInFlight ≥ 0` never wraps below zero in
any reachable event sequence, including a BROWSER_FAILURE that forces it to
0 while resolvers are still outstanding.  The code violates this: after a
NEW event allocates a resolver, BROWSER_FAILURE resets the `size_t` counter
to 0, and the still-outstanding resolver's completion callback then
decrements it, wrapping to 2^64 - 1. -/
theorem resolversInFlight_underflow :
    (dnssdRun implConnected
      [DnssdEvent.browserNew true,
       DnssdEvent.browserFailure,
       DnssdEvent.resolverDone true true 2 1 "SoapyRemote @ a" "_soapy._tcp" "local"
         [("uuid", "A")] "fe80::1" 55132]).resolversInFlight = 2 ^ 64 - 1 := by
  decide

/-- C2: the claim states at most one background poll thread is ever created
per session.  The code violates this: a successful `registerService` spawns
one poll thread (line 237), and a subsequent first `getServerURLs` does not
see it and spawns a second one (line 411). -/
theorem pollThread_spawned_twice :
    ((registerServiceSession okRegEnv "A" "55132" SOAPY_REMOTE_IPVER_INET implConnected).bind
      (fun impl =>
        (getServerURLs { browserNewOk := true, events := [DnssdEvent.browserAllForNow] }
            impl SOAPY_REMOTE_IPVER_UNSPEC).map
          (fun p => p.1.pollThreadCount))) = some 2 := by
  decide

/-- C3 counterexample: with the responder daemon absent and client
construction succeeded in no-fail mode, the client sits in the Connecting
state, and `status()` (state != FAILURE, line 191) does NOT return false as
the claim states. -/
theorem status_daemon_absent_not_false :
    status (mkImpl daemonAbsentCtorEnv).client ≠ some false := by
  decide

/-- C3 (amended): with the responder daemon absent and client construction
succeeded in no-fail mode, the client is in the Connecting state and
`status()` returns true; `status()` returns false exactly when the client
state is FAILURE. -/
theorem status_daemon_absent_true :
    status (mkImpl daemonAbsentCtorEnv).client = some true ∧
    ∀ st : ClientState, statusOfState st = false ↔ st = ClientState.Failure := by
  refine ⟨by decide, ?_⟩
  intro st
  cases st <;> decide

/-- C8: removing an absent key from the result store is a no-op, and (with
the unique-key invariant of `std::map`) removing the same key twice equals
removing it once. -/
theorem remove_result_absent_noop_idem (interface protocol : Int) (name ty domain : String)
    (results : List (ResultKey × ResultValue)) :
    (mapFind results (interface, protocol, name, ty, domain) = none →
      remove_result interface protocol name ty domain results = results) ∧
    ((results.map Prod.fst).Nodup →
      remove_result interface protocol name ty domain
        (remove_result interface protocol name ty domain results) =
      remove_result interface protocol name ty domain results) := by
  constructor
  · intro h
    simp [remove_result, h]
  · intro hnd
    cases hf : mapFind results (interface, protocol, name, ty, domain) with
    | none => simp [remove_result, hf]
    | some v =>
      have h2 : mapFind (mapErase (interface, protocol, name, ty, domain) results)
          (interface, protocol, name, ty, domain) = none := mapFind_mapErase_self hnd
      simp [remove_result, hf, h2]

/-- Witness for C8 at concrete inputs: key (9,...) is absent from
`resTwoIfaces`, and removing the present key (1,...) twice equals once. -/
theorem remove_result_absent_noop_idem_witness :
    remove_result 9 0 "x" "_soapy._tcp" "local" resTwoIfaces = resTwoIfaces ∧
    remove_result 1 0 "SoapyRemote @ a" "_soapy._tcp" "local"
        (remove_result 1 0 "SoapyRemote @ a" "_soapy._tcp" "local" resTwoIfaces) =
      remove_result 1 0 "SoapyRemote @ a" "_soapy._tcp" "local" resTwoIfaces :=
  ⟨(remove_result_absent_noop_idem 9 0 "x" "_soapy._tcp" "local" resTwoIfaces).1 (by decide),
   (remove_result_absent_noop_idem 1 0 "SoapyRemote @ a" "_soapy._tcp" "local"
      resTwoIfaces).2 (by decide)⟩

/-- C9: the facade operations pass the client pointer to daemon functions
with no null guard.  When `avahi_client_new` fails the client stays null
and each operation dereferences it (`none`); with a live client each
operation proceeds.  `getServerURLs` touches the client only on its
first call (null browser). -/
theorem null_client_precondition :
    (∀ cenv : CtorEnv, cenv.clientNew = none → (mkImpl cenv).client = none) ∧
    status none = none ∧
    printInfo none = none ∧
    (∀ (env : RegEnv) (uuid service : String) (v : Int),
      registerService none env uuid service v = none) ∧
    (∀ (env : BrowseEnv) (impl : Impl) (v : Int),
      impl.client = none → impl.browser = false → getServerURLs env impl v = none) ∧
    (∀ c : ClientHandle, (status (some c)).isSome ∧ (printInfo (some c)).isSome) ∧
    (∀ (c : ClientHandle) (env : RegEnv) (uuid service : String) (v : Int),
      (registerService (some c) env uuid service v).isSome) ∧
    (∀ (env : BrowseEnv) (impl : Impl) (v : Int),
      impl.client.isSome → (getServerURLs env impl v).isSome) := by
  refine ⟨?_, rfl, rfl, fun env uuid service v => rfl, ?_, fun c => ⟨rfl, rfl⟩, ?_, ?_⟩
  · intro cenv h
    unfold mkImpl
    by_cases hp : cenv.pollNewOk = false
    · simp [hp, implInit]
    · simp [hp, h, implInit]
  · intro env impl v hc hb
    simp [getServerURLs, hb, hc]
  · intro c env uuid service v
    by_cases hg : env.groupNewOk = false
    · simp [registerService, hg]
    · by_cases hr : env.addServiceRet (ipVerToAvahiProtocol v) (((atoi service) % 65536).toNat) ≠ 0
      · simp [registerService, hg, hr]
      · by_cases hc2 : env.commitRet ≠ 0
        · simp [registerService, hg, hr, hc2]
        · simp [registerService, hg, hr, hc2]
  · intro env impl v hc
    by_cases hb : impl.browser
    · simp [getServerURLs, hb]
    · obtain ⟨c, hcc⟩ := Option.isSome_iff_exists.mp hc
      by_cases hn : env.browserNewOk = false <;> simp [getServerURLs, hb, hcc, hn]

/-- Witness for C9 at concrete inputs: a session whose client construction
failed yields a null client and a null-dereferencing first discovery call;
the connected session has working operations. -/
theorem null_client_precondition_witness :
    (mkImpl { pollNewOk := true, clientNew := none }).client = none ∧
    getServerURLs { browserNewOk := true, events := [] }
        (mkImpl { pollNewOk := true, clientNew := none }) 0 = none ∧
    (status (some okClient)).isSome ∧
    (getServerURLs { browserNewOk := true, events := [] } implConnected 0).isSome :=
  ⟨(null_client_precondition).1 _ rfl,
   (null_client_precondition).2.2.2.2.1 _ _ 0 (by decide) (by decide),
   ((null_client_precondition).2.2.2.2.2.1 okClient).1,
   (null_client_precondition).2.2.2.2.2.2.2 _ _ 0 (by decide)⟩

/-- C10: an ipVer outside the three recognized constants converts to the
UNSPEC daemon protocol (lines 25-32 default), so `registerService` and
`getServerURLs` behave exactly as for an Unspecified request. -/
theorem unrecognized_ipVer_like_unspec (v : Int)
    (h1 : v ≠ SOAPY_REMOTE_IPVER_UNSPEC) (h2 : v ≠ SOAPY_REMOTE_IPVER_INET)
    (h3 : v ≠ SOAPY_REMOTE_IPVER_INET6) :
    ipVerToAvahiProtocol v = AVAHI_PROTO_UNSPEC ∧
    (∀ (client : Option ClientHandle) (env : RegEnv) (uuid service : String),
      registerService client env uuid service v =
        registerService client env uuid service SOAPY_REMOTE_IPVER_UNSPEC) ∧
    (∀ (env : BrowseEnv) (impl : Impl),
      getServerURLs env impl v = getServerURLs env impl SOAPY_REMOTE_IPVER_UNSPEC) := by
  have hv : ipVerToAvahiProtocol v = AVAHI_PROTO_UNSPEC := by
    simp [ipVerToAvahiProtocol, h1, h2, h3]
  have hvv : ipVerToAvahiProtocol v = ipVerToAvahiProtocol SOAPY_REMOTE_IPVER_UNSPEC := by
    rw [hv]
    decide
  refine ⟨hv, fun client env uuid service => ?_, fun env impl => ?_⟩
  · unfold registerService
    simp only [hvv]
  · unfold getServerURLs
    simp only [hvv]

/-- Witness for C10 at the unrecognized value 5. -/
theorem unrecognized_ipVer_like_unspec_witness :
    ipVerToAvahiProtocol 5 = AVAHI_PROTO_UNSPEC ∧
    registerService (some okClient) okRegEnv "A" "1234" 5 =
      registerService (some okClient) okRegEnv "A" "1234" SOAPY_REMOTE_IPVER_UNSPEC ∧
    getServerURLs { browserNewOk := true, events := [] } implConnected 5 =
      getServerURLs { browserNewOk := true, events := [] } implConnected
        SOAPY_REMOTE_IPVER_UNSPEC :=
  ⟨(unrecognized_ipVer_like_unspec 5 (by decide) (by decide) (by decide)).1,
   (unrecognized_ipVer_like_unspec 5 (by decide) (by decide) (by decide)).2.1
     (some okClient) okRegEnv "A" "1234",
   (unrecognized_ipVer_like_unspec 5 (by decide) (by decide) (by decide)).2.2
     { browserNewOk := true, events := [] } implConnected⟩

/-! ## atoi lemmas for C4 -/

theorem mem_skipSpaces {cs : List Char} {c : Char} (h : c ∈ skipSpaces cs) : c ∈ cs := by
  induction cs with
  | nil => simp [skipSpaces] at h
  | cons c2 t ih =>
    simp only [skipSpaces] at h
    by_cases hs : isSpaceChar c2
    · rw [if_pos hs] at h
      exact List.mem_cons_of_mem _ (ih h)
    · rw [if_neg hs] at h
      exact h

theorem digitsAcc_no_digit {cs : List Char} (h : ∀ c ∈ cs, c.isDigit = false) (a : Int) :
    digitsAcc a cs = a := by
  cases cs with
  | nil => rfl
  | cons c t =>
    have hc := h c (List.mem_cons_self _ _)
    simp [digitsAcc, hc]

theorem atoi_no_digit {s : String} (h : ∀ c ∈ s.data, c.isDigit = false) : atoi s = 0 := by
  unfold atoi atoiChars
  have h2 : ∀ c ∈ skipSpaces s.data, c.isDigit = false := fun c hc => h c (mem_skipSpaces hc)
  cases hs : skipSpaces s.data with
  | nil => rfl
  | cons c t =>
    have hmem : c ∈ skipSpaces s.data := by rw [hs]; exact List.mem_cons_self c t
    have hc : c.isDigit = false := h2 c hmem
    have ht : ∀ x ∈ t, x.isDigit = false := fun x hx =>
      h2 x (by rw [hs]; exact List.mem_cons_of_mem _ hx)
    by_cases hminus : c = '-'
    · simp [hminus, digitsAcc_no_digit ht]
    · by_cases hplus : c = '+'
      · simp [hminus, hplus, digitsAcc_no_digit ht]
      · simp [hminus, hplus, digitsAcc, hc]

/-- C4: a call to `registerService` with an empty or non-numeric port string
parses the port to 0 via `atoi`, the (spec-modelled) entry-group add rejects
it, a publisher error is logged, no service is published, no thread is
spawned, and the call returns normally (the embedding is a total function:
nothing is thrown). -/
theorem registerService_bad_port (c : ClientHandle) (uuid service : String) (v : Int)
    (h : service = "" ∨ ∀ ch ∈ service.data, ch.isDigit = false) :
    atoi service = 0 ∧
    registerService (some c) specRegEnv uuid service v =
      some { errorLogs := ["avahi_entry_group_add_service() failed"], groupCreated := true,
             addCallProto := some (ipVerToAvahiProtocol v), addCallPort := some 0,
             addCallName := some (SOAPY_REMOTE_DNSSD_NAME ++ " @ " ++ c.hostName),
             addCallTxt := some [("uuid", uuid)],
             published := false, threadSpawned := false } := by
  have h0 : atoi service = 0 := by
    rcases h with h | h
    · rw [h]
      decide
    · exact atoi_no_digit h
  refine ⟨h0, ?_⟩
  unfold registerService
  simp [specRegEnv, specAddServiceRet, h0]

/-- Witness for C4 at the concrete non-numeric port string "abc". -/
theorem registerService_bad_port_witness :
    atoi "abc" = 0 ∧
    registerService (some okClient) specRegEnv "A" "abc" SOAPY_REMOTE_IPVER_INET =
      some { errorLogs := ["avahi_entry_group_add_service() failed"], groupCreated := true,
             addCallProto := some (ipVerToAvahiProtocol SOAPY_REMOTE_IPVER_INET),
             addCallPort := some 0,
             addCallName := some (SOAPY_REMOTE_DNSSD_NAME ++ " @ " ++ okClient.hostName),
             addCallTxt := some [("uuid", "A")],
             published := false, threadSpawned := false } :=
  registerService_bad_port okClient "A" "abc" SOAPY_REMOTE_IPVER_INET (Or.inr (by decide))

/-! ## Snapshot lemmas for C5 and C6 -/

theorem mapFind_snapshotStep_outer (m : List (String × List (Int × String)))
    (e : ResultKey × ResultValue) (u : String) :
    mapFind (snapshotStep m e) u =
      if u = e.2.1 then
        some (mapAssign e.2.2.1 e.2.2.2 ((mapFind m e.2.1).getD []))
      else mapFind m u := by
  simp only [snapshotStep]
  rw [mapFind_mapAssign]

theorem lookup2_snapshotStep (m : List (String × List (Int × String)))
    (e : ResultKey × ResultValue) (u : String) (i : Int) :
    lookup2 (snapshotStep m e) u i =
      if u = e.2.1 ∧ i = e.2.2.1 then some e.2.2.2 else lookup2 m u i := by
  unfold lookup2
  rw [mapFind_snapshotStep_outer]
  by_cases hu : u = e.2.1
  · rw [if_pos hu]
    simp only [Option.some_bind]
    rw [mapFind_mapAssign]
    by_cases hi : i = e.2.2.1
    · rw [if_pos hi, if_pos ⟨hu, hi⟩]
    · rw [if_neg hi, if_neg (fun hh => hi hh.2), hu]
      cases hm : mapFind m e.2.1 with
      | none => simp [hm, mapFind]
      | some inner => simp [hm]
  · rw [if_neg hu, if_neg (fun hh => hu hh.1)]

theorem lookup2_foldl_some (l : List (ResultKey × ResultValue)) :
    ∀ (acc : List (String × List (Int × String))) (u : String) (i : Int) (url : String),
    lookup2 (l.foldl snapshotStep acc) u i = some url →
    (∃ k : ResultKey, (k, (u, i, url)) ∈ l) ∨ lookup2 acc u i = some url := by
  induction l with
  | nil =>
    intro acc u i url h
    exact Or.inr h
  | cons e t ih =>
    intro acc u i url h
    rw [List.foldl_cons] at h
    rcases ih _ u i url h with h1 | h1
    · rcases h1 with ⟨k, hk⟩
      exact Or.inl ⟨k, List.mem_cons_of_mem _ hk⟩
    · rw [lookup2_snapshotStep] at h1
      by_cases hc : u = e.2.1 ∧ i = e.2.2.1
      · rw [if_pos hc] at h1
        have hurl : e.2.2.2 = url := Option.some.inj h1
        left
        refine ⟨e.1, ?_⟩
        rw [hc.1, hc.2, ← hurl]
        exact List.mem_cons_self _ _
      · rw [if_neg hc] at h1
        exact Or.inr h1

theorem lookup2_foldl_isSome (l : List (ResultKey × ResultValue)) :
    ∀ (acc : List (String × List (Int × String))) (u : String) (i : Int),
    ((∃ (k : ResultKey) (url : String), (k, (u, i, url)) ∈ l) ∨ (lookup2 acc u i).isSome) →
    (lookup2 (l.foldl snapshotStep acc) u i).isSome := by
  induction l with
  | nil =>
    intro acc u i h
    rcases h with ⟨k, url, hk⟩ | h
    · simp at hk
    · exact h
  | cons e t ih =>
    intro acc u i h
    rw [List.foldl_cons]
    apply ih
    rcases h with ⟨k, url, hk⟩ | h
    · rcases List.mem_cons.mp hk with h1 | h1
      · right
        rw [lookup2_snapshotStep, ← h1]
        simp
      · exact Or.inl ⟨k, url, h1⟩
    · right
      rw [lookup2_snapshotStep]
      by_cases hc : u = e.2.1 ∧ i = e.2.2.1
      · rw [if_pos hc]
        rfl
      · rw [if_neg hc]
        exact h

/-- C5 counterexample: two stored entries on different interfaces share
(uuid, ipVer) with different URLs; the snapshot keeps only the second URL,
so an internal entry with matching (uuid, ipVer, url) exists whose url is
NOT the snapshot value — the claimed equivalence fails right-to-left. -/
theorem snapshot_projection_iff_fails :
    ((1, 0, "SoapyRemote @ a", "_soapy._tcp", "local"),
      ("A", (4 : Int), "tcp://10.0.0.1:100")) ∈ resTwoIfaces ∧
    lookup2 (snapshot resTwoIfaces) "A" 4 = some "tcp://10.0.0.2:100" ∧
    ("tcp://10.0.0.2:100" : String) ≠ "tcp://10.0.0.1:100" :=
  ⟨by decide, by decide, by decide⟩

/-- C5 (amended): `snapshot[uuid][ipVer] = url` implies some internal entry
has matching (uuid, ipVer, url); conversely, if some internal entry matches
(uuid, ipVer, url) then `snapshot[uuid][ipVer]` is defined and its value is
the url of some internal entry matching (uuid, ipVer) — with a unique
internal entry per (uuid, ipVer) this is the original equivalence. -/
theorem snapshot_projection (results : List (ResultKey × ResultValue)) (u : String) (i : Int) :
    (∀ url, lookup2 (snapshot results) u i = some url →
      ∃ k : ResultKey, (k, (u, i, url)) ∈ results) ∧
    (∀ (k : ResultKey) (url : String), (k, (u, i, url)) ∈ results →
      ∃ url2, lookup2 (snapshot results) u i = some url2 ∧
        ∃ k2 : ResultKey, (k2, (u, i, url2)) ∈ results) := by
  constructor
  · intro url h
    rcases lookup2_foldl_some results [] u i url h with h1 | h1
    · exact h1
    · simp [lookup2, mapFind] at h1
  · intro k url hk
    have hs : (lookup2 (snapshot results) u i).isSome :=
      lookup2_foldl_isSome results [] u i (Or.inl ⟨k, url, hk⟩)
    obtain ⟨url2, h2⟩ := Option.isSome_iff_exists.mp hs
    refine ⟨url2, h2, ?_⟩
    rcases lookup2_foldl_some results [] u i url2 h2 with h1 | h1
    · exact h1
    · simp [lookup2, mapFind] at h1

/-- Witness for C5 at the concrete store `resTwoIfaces`. -/
theorem snapshot_projection_witness :
    ∃ k : ResultKey, (k, ("A", (4 : Int), "tcp://10.0.0.2:100")) ∈ resTwoIfaces :=
  (snapshot_projection resTwoIfaces "A" 4).1 "tcp://10.0.0.2:100" (by decide)

/-! ## Result-store invariant for C6 -/

/-- Every stored entry carries a non-empty uuid. -/
def goodResults (rs : List (ResultKey × ResultValue)) : Prop :=
  ∀ e ∈ rs, e.2.1 ≠ ""

theorem goodResults_add_result (interface protocol : Int) (name ty domain uuid host : String)
    (port : Nat) {rs : List (ResultKey × ResultValue)} (h : goodResults rs) :
    goodResults (add_result interface protocol name ty domain uuid host port rs) := by
  by_cases hu : uuid = ""
  · intro e he
    simp only [add_result, if_pos hu] at he
    exact h e he
  · intro e he
    simp only [add_result, if_neg hu] at he
    rcases mem_mapAssign he with h1 | h1
    · rw [h1]
      exact hu
    · exact h e h1

theorem goodResults_remove_result (interface protocol : Int) (name ty domain : String)
    {rs : List (ResultKey × ResultValue)} (h : goodResults rs) :
    goodResults (remove_result interface protocol name ty domain rs) := by
  intro e he
  simp only [remove_result] at he
  cases hf : mapFind rs (interface, protocol, name, ty, domain) with
  | none =>
    rw [hf] at he
    exact h e he
  | some v =>
    rw [hf] at he
    exact h e (mem_mapErase he)

theorem dnssdStep_resolverDone_results (impl : Impl) (found addrOk : Bool)
    (interface protocol : Int) (name ty domain : String) (txt : List (String × String))
    (addr : String) (port : Nat) :
    (dnssdStep impl (DnssdEvent.resolverDone found addrOk interface protocol name ty domain
        txt addr port)).results =
      if impl.pendingResolvers = 0 then impl.results
      else if (found && addrOk) = true then
        add_result interface protocol name ty domain (txtUuid txt) addr port impl.results
      else impl.results := by
  by_cases hp : impl.pendingResolvers = 0
  · simp [dnssdStep, hp]
  · by_cases hf : (found && addrOk) = true
    · simp [dnssdStep, hp, hf]
    · simp [dnssdStep, hp, hf]

theorem goodResults_step {impl : Impl} (h : goodResults impl.results) (ev : DnssdEvent) :
    goodResults (dnssdStep impl ev).results := by
  cases ev with
  | browserFailure => exact h
  | browserNew allocOk =>
    cases allocOk
    · exact h
    · exact h
  | browserRemove interface protocol name ty domain =>
    exact goodResults_remove_result interface protocol name ty domain h
  | browserAllForNow => exact h
  | browserCacheExhausted => exact h
  | resolverDone found addrOk interface protocol name ty domain txt addr port =>
    intro e he
    rw [dnssdStep_resolverDone_results] at he
    by_cases hp : impl.pendingResolvers = 0
    · rw [if_pos hp] at he
      exact h e he
    · rw [if_neg hp] at he
      by_cases hf : (found && addrOk) = true
      · rw [if_pos hf] at he
        exact goodResults_add_result interface protocol name ty domain (txtUuid txt) addr
          port h e he
      · rw [if_neg hf] at he
        exact h e he

theorem goodResults_run {impl : Impl} (h : goodResults impl.results)
    (events : List DnssdEvent) : goodResults (dnssdRun impl events).results := by
  induction events generalizing impl with
  | nil => exact h
  | cons e t ih => exact ih (goodResults_step h e)

theorem snapshot_key_from_results (l : List (ResultKey × ResultValue)) :
    ∀ (acc : List (String × List (Int × String))) (u : String) (m2 : List (Int × String)),
    mapFind (l.foldl snapshotStep acc) u = some m2 →
    (∃ e ∈ l, e.2.1 = u) ∨ (mapFind acc u).isSome := by
  induction l with
  | nil =>
    intro acc u m2 h
    exact Or.inr (h ▸ rfl)
  | cons e t ih =>
    intro acc u m2 h
    rw [List.foldl_cons] at h
    rcases ih _ u m2 h with h1 | h1
    · rcases h1 with ⟨e2, he2, hu⟩
      exact Or.inl ⟨e2, List.mem_cons_of_mem _ he2, hu⟩
    · rw [mapFind_snapshotStep_outer] at h1
      by_cases hu : u = e.2.1
      · exact Or.inl ⟨e, List.mem_cons_self _ _, hu.symm⟩
      · rw [if_neg hu] at h1
        exact Or.inr h1

/-- C6: in any session (any constructor environment, any delivered event
sequence) every uuid key of the snapshot is non-empty, because `add_result`
drops empty uuids; and a resolver completion without FOUND, without an
address, or whose TXT uuid is empty leaves the result store unchanged. -/
theorem snapshot_uuid_nonempty :
    (∀ (cenv : CtorEnv) (events : List DnssdEvent) (u : String)
        (m : List (Int × String)),
      mapFind (snapshot (dnssdRun (mkImpl cenv) events).results) u = some m → u ≠ "") ∧
    (∀ (impl : Impl) (found addrOk : Bool) (interface protocol : Int)
        (name ty domain : String) (txt : List (String × String)) (addr : String) (port : Nat),
      (found = false ∨ addrOk = false ∨ txtUuid txt = "") →
      (dnssdStep impl (DnssdEvent.resolverDone found addrOk interface protocol name ty domain
          txt addr port)).results = impl.results) := by
  constructor
  · intro cenv events u m h
    have hg : goodResults (dnssdRun (mkImpl cenv) events).results := by
      apply goodResults_run
      intro e he
      unfold mkImpl at he
      by_cases hp : cenv.pollNewOk = false
      · rw [if_pos hp] at he
        simp [implInit] at he
      · rw [if_neg hp] at he
        simp [implInit] at he
    rcases snapshot_key_from_results _ [] u m h with h1 | h1
    · rcases h1 with ⟨e, he, hu⟩
      intro hu0
      exact hg e he (by rw [hu, hu0])
    · simp [mapFind] at h1
  · intro impl found addrOk interface protocol name ty domain txt addr port h
    rw [dnssdStep_resolverDone_results]
    by_cases hp : impl.pendingResolvers = 0
    · rw [if_pos hp]
    · rw [if_neg hp]
      by_cases hf : (found && addrOk) = true
      · rcases h with h | h | h
        · rw [h] at hf
          simp at hf
        · rw [h] at hf
          simp at hf
        · rw [if_pos hf]
          simp [add_result, h]
      · rw [if_neg hf]

/-- Witness for C6: a concrete session discovering one v6 service yields a
snapshot whose only key is the non-empty uuid "A"; and a concrete FOUND-less
resolver completion leaves the store unchanged. -/
theorem snapshot_uuid_nonempty_witness :
    ("A" : String) ≠ "" ∧
    (dnssdStep implConnected (DnssdEvent.resolverDone false true 3 1 "SoapyRemote @ a"
        "_soapy._tcp" "local" [] "fe80::1" 55132)).results = implConnected.results :=
  ⟨snapshot_uuid_nonempty.1 { pollNewOk := true, clientNew := some okClient }
      [DnssdEvent.browserNew true,
       DnssdEvent.resolverDone true true 3 1 "SoapyRemote @ a" "_soapy._tcp" "local"
         [("uuid", "A")] "fe80::1" 55132]
      "A" [(6, "tcp://fe80::1%3:55132")] (by decide),
   snapshot_uuid_nonempty.2 implConnected false true 3 1 "SoapyRemote @ a" "_soapy._tcp"
     "local" [] "fe80::1" 55132 (Or.inl rfl)⟩

/-! ## Decimal-rendering lemmas for C7 -/

theorem digitChar_ne_pct {m : Nat} (h : m < 10) : Nat.digitChar m ≠ '%' := by
  interval_cases m <;> decide

theorem toDigitsCore_ne_pct (fuel : Nat) :
    ∀ (n : Nat) (ds : List Char), (∀ c ∈ ds, c ≠ '%') →
    ∀ c ∈ Nat.toDigitsCore 10 fuel n ds, c ≠ '%' := by
  induction fuel with
  | zero => exact fun n ds h => h
  | succ fuel ih =>
    intro n ds h c hc
    have hd : Nat.digitChar (n % 10) ≠ '%' := digitChar_ne_pct (Nat.mod_lt _ (by decide))
    have hcons : ∀ c2 ∈ Nat.digitChar (n % 10) :: ds, c2 ≠ '%' := by
      intro c2 hc2
      rcases List.mem_cons.mp hc2 with h1 | h1
      · rw [h1]
        exact hd
      · exact h c2 h1
    simp only [Nat.toDigitsCore] at hc
    by_cases h0 : n / 10 = 0
    · rw [if_pos h0] at hc
      exact hcons c hc
    · rw [if_neg h0] at hc
      exact ih (n / 10) _ hcons c hc

theorem natToString_ne_pct (n : Nat) : ∀ c ∈ (toString n).data, c ≠ '%' := by
  have hd : (toString n).data = Nat.toDigitsCore 10 (n + 1) n [] := rfl
  rw [hd]
  exact toDigitsCore_ne_pct (n + 1) n [] (by simp)

theorem hasPct_eq_false {s : String} (h : ∀ c ∈ s.data, c ≠ '%') : hasPct s = false := by
  simp only [hasPct, List.any_eq_false, decide_eq_true_eq]
  exact h

theorem hasPct_append (a b : String) : hasPct (a ++ b) = (hasPct a || hasPct b) := by
  simp [hasPct, String.data_append, List.any_append]

/-- C7: a result stored by `add_result` has URL `tcp://<addr>:<port>` where
the address receives the `%<ifIndex>` zone suffix exactly when the entry's
protocol is INET6 (interface index 0 included); for non-v6 entries the URL
contains no percent character at all (the printed address contains none).
(`SoapyURL::toString` is modelled from the spec; see its definition.) -/
theorem add_result_url_zone (interface protocol : Int)
    (name ty domain uuid host : String) (port : Nat)
    (rs : List (ResultKey × ResultValue))
    (hu : uuid ≠ "") (hh : hasPct host = false) :
    mapFind (add_result interface protocol name ty domain uuid host port rs)
        (interface, protocol, name, ty, domain) =
      some (uuid, avahiProtocolToIpVer protocol,
        SoapyURL.toString "tcp"
          (if protocol = AVAHI_PROTO_INET6 then host ++ "%" ++ toString interface else host)
          (toString port)) ∧
    (protocol = AVAHI_PROTO_INET6 →
      hasPct (SoapyURL.toString "tcp" (host ++ "%" ++ toString interface) (toString port))
        = true) ∧
    (protocol ≠ AVAHI_PROTO_INET6 →
      hasPct (SoapyURL.toString "tcp" host (toString port)) = false) := by
  refine ⟨?_, ?_, ?_⟩
  · simp only [add_result, if_neg hu]
    rw [mapFind_mapAssign, if_pos rfl]
  · intro h6
    have h1 : hasPct "%" = true := by decide
    simp [SoapyURL.toString, hasPct_append, h1]
  · intro h6
    have h1 : hasPct "tcp" = false := by decide
    have h2 : hasPct "://" = false := by decide
    have h3 : hasPct ":" = false := by decide
    have h4 : hasPct (toString port) = false := hasPct_eq_false (natToString_ne_pct port)
    have h5 : hasPct "tcp://" = false := by decide
    simp [SoapyURL.toString, hasPct_append, h1, h2, h3, h4, h5, hh]

/-- Witness for C7 at a concrete v6 result with interface index 0: the
stored URL is `tcp://fe80::1%0:55132`, and it contains the zone marker. -/
theorem add_result_url_zone_witness :
    mapFind (add_result 0 AVAHI_PROTO_INET6 "SoapyRemote @ a" "_soapy._tcp" "local" "A"
        "fe80::1" 55132 []) (0, AVAHI_PROTO_INET6, "SoapyRemote @ a", "_soapy._tcp", "local") =
      some ("A", avahiProtocolToIpVer AVAHI_PROTO_INET6,
        SoapyURL.toString "tcp" ("fe80::1" ++ "%" ++ toString (0 : Int))
          (toString (55132 : Nat))) ∧
    hasPct (SoapyURL.toString "tcp" ("fe80::1" ++ "%" ++ toString (0 : Int))
        (toString (55132 : Nat))) = true := by
  have h := add_result_url_zone 0 AVAHI_PROTO_INET6 "SoapyRemote @ a" "_soapy._tcp" "local"
    "A" "fe80::1" 55132 [] (by decide) (by decide)
  refine ⟨?_, h.2.1 rfl⟩
  have h1 := h.1
  rw [if_pos rfl] at h1
  exact h1
